import Mathlib

set_option maxRecDepth 8000

/-!
Verification of the ENVI DEM header writer (`graveyard/DEM.h`).

The development shallowly embeds the two components of the header writer:

* `vw_to_envi_channel_type` — the compile-time trait mapping a pixel
  channel kind to the numeric ENVI data-type code (seven explicit
  template specializations; the primary template is empty, so any other
  instantiation fails to resolve).
* `write_ENVI_header` — the header emitter.  Each `fprintf` call of the
  source becomes one string chunk; the emitted file is the concatenation
  of the chunks in order.  `double` values printed with `%f` are modelled
  as rationals rendered by `formatFixed6` (sign, integer part, six
  fractional digits, rounding to nearest).  `std::min_element` /
  `std::max_element` over the image's sample range become `min_element` /
  `max_element` over the sample list; on an empty range they return
  `none` (the source would dereference the end iterator — undefined
  behaviour), and the emitter's result is then undefined (`none`).
-/

/-- Host byte order, the implicit machine parameter probed by the
`short`/`char[2]` union in the source. -/
inductive Endianness where
  | little
  | big
deriving DecidableEq, Repr

/-- The seven channel kinds for which `vw_to_envi_channel_type` has an
explicit template specialization in the source. -/
inductive ChannelKind where
  | uint8
  | int16
  | int32
  | float32
  | float64
  | uint16
  | uint32
deriving DecidableEq, Repr, Fintype

/-- Channel kinds a caller might instantiate the trait with: the seven
supported ones plus representative unsupported numeric kinds (for which
the primary template `struct vw_to_envi_channel_type {}` has no
`value()` member, so resolution fails). -/
inductive ChannelKindExt where
  | uint8
  | int16
  | int32
  | float32
  | float64
  | uint16
  | uint32
  | int8
  | int64
  | uint64
  | boolk
deriving DecidableEq, Repr, Fintype

/-- Inclusion of the supported kinds into the extended universe of kinds. -/
def ChannelKind.toExt : ChannelKind → ChannelKindExt
  | .uint8 => .uint8
  | .int16 => .int16
  | .int32 => .int32
  | .float32 => .float32
  | .float64 => .float64
  | .uint16 => .uint16
  | .uint32 => .uint32

/-- The channel-type resolver: `value()` of each of the seven template
specializations of `vw_to_envi_channel_type` in the source. -/
def vw_to_envi_channel_type : ChannelKind → ℤ
  | .uint8 => 1
  | .int16 => 2
  | .int32 => 3
  | .float32 => 4
  | .float64 => 5
  | .uint16 => 12
  | .uint32 => 13

/-- The resolver over the extended universe of kinds: `some` code where a
template specialization exists, `none` where only the empty primary
template applies (the C++ program fails to compile there). -/
def vw_to_envi_channel_type_ext : ChannelKindExt → Option ℤ
  | .uint8 => some 1
  | .int16 => some 2
  | .int32 => some 3
  | .float32 => some 4
  | .float64 => some 5
  | .uint16 => some 12
  | .uint32 => some 13
  | .int8 => none
  | .int64 => none
  | .uint64 => none
  | .boolk => none

/-- A 2D bounding box, as returned by `georef.bounding_box(cols, rows)`
(`vw::BBox2`): minimum and maximum corner coordinates. -/
structure BBox2 where
  minx : ℚ
  miny : ℚ
  maxx : ℚ
  maxy : ℚ

/-- The narrow read-only interface of `vw::cartography::GeoReference`
consumed by the emitter: a bounding-box query parameterized by the
image's column and row counts, the affine transform's indexable
coefficients (only entries (0,0) and (1,1) are read), the datum name,
and the textual self-description obtained via `operator<<`. -/
structure GeoReference where
  bounding_box : ℕ → ℕ → BBox2
  transform : ℕ → ℕ → ℚ
  datum_name : String
  description : String

/-- The image abstraction consumed by the emitter: column, row and plane
counts, and the samples visited by the `begin()`..`end()` scan, in scan
order.  The scan covers exactly `cols * rows * planes` samples. -/
structure DEMImage where
  cols : ℕ
  rows : ℕ
  planes : ℕ
  samples : List ℚ
  hsize : samples.length = cols * rows * planes

/-- `std::min_element` over the sample range, by value: the minimum of a
non-empty list, `none` for the empty range (where the source would
dereference the end iterator). -/
def min_element : List ℚ → Option ℚ
  | [] => none
  | x :: xs => some (xs.foldl min x)

/-- `std::max_element` over the sample range, by value: the maximum of a
non-empty list, `none` for the empty range. -/
def max_element : List ℚ → Option ℚ
  | [] => none
  | x :: xs => some (xs.foldl max x)

/-- The `printf "%f"` rendering of a `double`, modelled on exact
rationals: optional sign, integer part, a dot, and exactly six
fractional digits, rounded to nearest. -/
def formatFixed6 (q : ℚ) : String :=
  let sgn := if q.num < 0 then "-" else ""
  let n : ℕ := (2 * q.num.natAbs * 1000000 + q.den) / (2 * q.den)
  let ip : ℕ := n / 1000000
  let fp : ℕ := n % 1000000
  let fs := toString fp
  sgn ++ toString ip ++ "." ++ String.mk (List.replicate (6 - fs.length) '0') ++ fs

/-- The two bytes of the 16-bit value `n` as laid out in memory by the
union `{ short number; char bytes[2]; }` on a host of endianness `e`. -/
def shortBytes (e : Endianness) (n : ℕ) : ℕ × ℕ :=
  match e with
  | .little => (n % 256, n / 256 % 256)
  | .big => (n / 256 % 256, n % 256)

/-- The emitter's endianness probe: store the 16-bit value 1, then
compare `char(number)` (the truncation of the value to one byte) with
`bytes[1]`; the result is 1 exactly when they agree (big-endian host),
0 otherwise (little-endian host). -/
def byteOrderProbe (e : Endianness) : ℕ :=
  if 1 % 256 = (shortBytes e 1).2 then 1 else 0

/-- The sequence of chunks written by `write_ENVI_header`, one chunk per
`fprintf` call of the source, in source order, given the already-resolved
data-type `code` and the already-computed minimum and maximum sample
values. -/
def envi_chunk_list (code : ℤ) (e : Endianness) (default_z_value : ℚ)
    (img : DEMImage) (georef : GeoReference) (minv maxv : ℚ) : List String :=
  let bb := georef.bounding_box img.cols img.rows
  [ "ENVI\n",
    "description = \x7b \n",
    "   -- Digital Elevation Map generated by the NASA Ames Stereo Pipeline --\n",
    "   \n",
    "   The Ames Stereo Pipeline generates 3D coordinates in a planetocentric \n",
    "   coordinate system with the origin at the planetary center of mass.\n",
    "   Elevations are referenced relative to standards set by the International\n",
    "   Astronomical Union (IAU)\n",
    "   \n",
    "   This DEM was generated using an area based correlation technique followed by several \n",
    "   several stages of outlier detection.  This produced a map of the disparities for each \n",
    "   pixel which was then interpolated (hole filled) using a 2D non-uniform b-spline fitting\n",
    "   process.  You should find a interpolation map file included in this archive that shows\n",
    "   which pixels represent interpolated data.\n",
    "   \n",
    "   Projection Information:\n",
    "   " ++ georef.description ++ "\n",
    "   \n",
    "   Bounding box:\n",
    "     Minimum X (left)    = " ++ formatFixed6 bb.minx ++ "\n",
    "     Minimum Y (top)     = " ++ formatFixed6 bb.miny ++ "\n",
    "     Maximum X (right)   = " ++ formatFixed6 bb.maxx ++ "\n",
    "     Maximum Y (bottom)  = " ++ formatFixed6 bb.maxy ++ "\n",
    "     Minimum Z           = " ++ formatFixed6 minv ++ "\n",
    "     Maximum Z           = " ++ formatFixed6 maxv ++ "\n",
    "     Default Z           = " ++ formatFixed6 default_z_value ++ "\n",
    "\x7d\n",
    "samples = " ++ toString img.cols ++ "\n",
    "lines   = " ++ toString img.rows ++ "\n",
    "bands   = " ++ toString img.planes ++ "\n",
    "header offset = 0\n",
    "map info = \x7b Geographic Lat/Lon, 1.5, 1.5, " ++ formatFixed6 bb.minx ++ ", " ++
      formatFixed6 bb.maxy ++ ", " ++ formatFixed6 (georef.transform 0 0) ++ ", " ++
      formatFixed6 (georef.transform 1 1) ++ ", " ++ georef.datum_name ++ ", units=Degrees\x7d\n",
    "file type = ENVI Standard\n",
    "data type = " ++ toString code ++ "\n",
    "interleave = bsq\n",
    "byte order = " ++ toString (byteOrderProbe e) ++ "\n",
    "\n" ]

/-- The header emitter `write_ENVI_header` of the source, for an image of
a supported channel kind `ck`, on a host of endianness `e`: the list of
chunks written to the destination file, or `none` when the sample range
is empty (the source's min/max computation dereferences the end iterator
there — undefined behaviour, no defined output). -/
def write_ENVI_header (e : Endianness) (default_z_value : ℚ) (img : DEMImage)
    (georef : GeoReference) (ck : ChannelKind) : Option (List String) :=
  match min_element img.samples, max_element img.samples with
  | some minv, some maxv =>
    some (envi_chunk_list (vw_to_envi_channel_type ck) e default_z_value img georef minv maxv)
  | _, _ => none

/-- The emitter over the extended universe of channel kinds: when the
channel kind has no template specialization, the C++ program fails to
compile, so no run ever happens and no bytes are written — modelled as
`none` before any chunk is produced. -/
def write_ENVI_header_ext (e : Endianness) (default_z_value : ℚ) (img : DEMImage)
    (georef : GeoReference) (ck : ChannelKindExt) : Option (List String) :=
  match vw_to_envi_channel_type_ext ck with
  | none => none
  | some code =>
    match min_element img.samples, max_element img.samples with
    | some minv, some maxv =>
      some (envi_chunk_list code e default_z_value img georef minv maxv)
    | _, _ => none

/-- The bytes of the destination file: the concatenation of the chunks. -/
def envi_file_content (e : Endianness) (default_z_value : ℚ) (img : DEMImage)
    (georef : GeoReference) (ck : ChannelKind) : Option String :=
  (write_ENVI_header e default_z_value img georef ck).map String.join

/-- One C-library call on the destination file, for the I/O trace of the
emitter: `fopen(path, mode)`, one `fprintf` (its chunk), or `fclose`. -/
inductive FileEvent where
  | openFile (path : String) (mode : String)
  | writeChunk (chunk : String)
  | closeFile
deriving DecidableEq, Repr

/-- The I/O trace of `write_ENVI_header` on the destination file.
`openOK` tells whether `fopen` succeeded; the source never inspects the
returned handle, so the trace is the same either way: one `fopen`, every
chunk's `fprintf`, one `fclose`. -/
def write_ENVI_header_trace (header_name : String) (openOK : Bool) (e : Endianness)
    (default_z_value : ℚ) (img : DEMImage) (georef : GeoReference)
    (ck : ChannelKind) : Option (List FileEvent) :=
  let _ := openOK
  match min_element img.samples, max_element img.samples with
  | some minv, some maxv =>
    some (FileEvent.openFile header_name "w" ::
      ((envi_chunk_list (vw_to_envi_channel_type ck) e default_z_value img georef
          minv maxv).map FileEvent.writeChunk ++ [FileEvent.closeFile]))
  | _, _ => none

/-- A 4 × 3 × 1 image all of whose twelve samples equal 7.0. -/
def exampleImage : DEMImage :=
  ⟨4, 3, 1, List.replicate 12 7, rfl⟩

/-- An image with zero columns and zero rows: its sample range is empty. -/
def emptyImage : DEMImage :=
  ⟨0, 0, 1, [], rfl⟩

/-- A geospatial reference with X scale 0.5, Y scale -0.5, bounding box
minimum (10.0, 20.0) and maximum (12.0, 21.5), datum name WGS84. -/
def exampleGeoRef : GeoReference where
  bounding_box := fun _ _ => ⟨10, 20, 12, mkRat 43 2⟩
  transform := fun i j =>
    if i = 0 ∧ j = 0 then mkRat 1 2 else if i = 1 ∧ j = 1 then mkRat (-1) 2 else 0
  datum_name := "WGS84"
  description := "Geographic projection"

/-- The value `std::min_element` settles on is a lower bound of every
element of the scanned range. -/
lemma foldl_min_le : ∀ (xs : List ℚ) (x s : ℚ), s ∈ x :: xs → xs.foldl min x ≤ s := by
  intro xs
  induction xs with
  | nil =>
    intro x s hs
    rcases List.mem_singleton.mp hs with rfl
    exact le_refl _
  | cons y ys ih =>
    intro x s hs
    simp only [List.foldl_cons]
    rcases List.mem_cons.mp hs with h | h
    · rw [h]
      exact le_trans (ih (min x y) (min x y) (List.mem_cons_self _ _)) (min_le_left x y)
    · rcases List.mem_cons.mp h with h2 | h2
      · rw [h2]
        exact le_trans (ih (min x y) (min x y) (List.mem_cons_self _ _)) (min_le_right x y)
      · exact ih (min x y) s (List.mem_cons_of_mem _ h2)

/-- The value `std::min_element` settles on is an element of the scanned
range. -/
lemma foldl_min_mem : ∀ (xs : List ℚ) (x : ℚ), xs.foldl min x ∈ x :: xs := by
  intro xs
  induction xs with
  | nil => intro x; simp
  | cons y ys ih =>
    intro x
    simp only [List.foldl_cons]
    rcases List.mem_cons.mp (ih (min x y)) with h1 | h1
    · rcases min_choice x y with hc | hc
      · rw [h1, hc]
        exact List.mem_cons_self _ _
      · rw [h1, hc]
        exact List.mem_cons_of_mem _ (List.mem_cons_self _ _)
    · exact List.mem_cons_of_mem _ (List.mem_cons_of_mem _ h1)

/-- The value `std::max_element` settles on is an upper bound of every
element of the scanned range. -/
lemma le_foldl_max : ∀ (xs : List ℚ) (x s : ℚ), s ∈ x :: xs → s ≤ xs.foldl max x := by
  intro xs
  induction xs with
  | nil =>
    intro x s hs
    rcases List.mem_singleton.mp hs with rfl
    exact le_refl _
  | cons y ys ih =>
    intro x s hs
    simp only [List.foldl_cons]
    rcases List.mem_cons.mp hs with h | h
    · rw [h]
      exact le_trans (le_max_left x y) (ih (max x y) (max x y) (List.mem_cons_self _ _))
    · rcases List.mem_cons.mp h with h2 | h2
      · rw [h2]
        exact le_trans (le_max_right x y) (ih (max x y) (max x y) (List.mem_cons_self _ _))
      · exact ih (max x y) s (List.mem_cons_of_mem _ h2)

/-- The value `std::max_element` settles on is an element of the scanned
range. -/
lemma foldl_max_mem : ∀ (xs : List ℚ) (x : ℚ), xs.foldl max x ∈ x :: xs := by
  intro xs
  induction xs with
  | nil => intro x; simp
  | cons y ys ih =>
    intro x
    simp only [List.foldl_cons]
    rcases List.mem_cons.mp (ih (max x y)) with h1 | h1
    · rcases max_choice x y with hc | hc
      · rw [h1, hc]
        exact List.mem_cons_self _ _
      · rw [h1, hc]
        exact List.mem_cons_of_mem _ (List.mem_cons_self _ _)
    · exact List.mem_cons_of_mem _ (List.mem_cons_of_mem _ h1)

/-- Claim C1: the Channel-Type Resolver returns exactly the table codes
1, 2, 3, 4, 5, 12, 13 for the seven supported channel kinds; the mapping
is total on the supported set (a total Lean function), injective, and
unresolvable (`none`) for every channel kind outside the supported set. -/
theorem channel_type_table :
    (vw_to_envi_channel_type .uint8 = 1 ∧ vw_to_envi_channel_type .int16 = 2 ∧
      vw_to_envi_channel_type .int32 = 3 ∧ vw_to_envi_channel_type .float32 = 4 ∧
      vw_to_envi_channel_type .float64 = 5 ∧ vw_to_envi_channel_type .uint16 = 12 ∧
      vw_to_envi_channel_type .uint32 = 13) ∧
    Function.Injective vw_to_envi_channel_type ∧
    (∀ k : ChannelKind, vw_to_envi_channel_type_ext k.toExt = some (vw_to_envi_channel_type k)) ∧
    (∀ ck : ChannelKindExt, (∀ k : ChannelKind, k.toExt ≠ ck) →
      vw_to_envi_channel_type_ext ck = none) := by
  refine ⟨by decide, ?_, by decide, by decide⟩
  intro a b h
  revert h
  revert a b
  decide

/-- Witness for C1: the resolver is unresolvable at the 8-bit signed
kind, which is outside the supported set. -/
theorem channel_type_table_witness :
    vw_to_envi_channel_type_ext ChannelKindExt.int8 = none :=
  channel_type_table.2.2.2 ChannelKindExt.int8 (by decide)

/-- Claim C2: for every non-empty image the emitted header's `samples`,
`lines` and `bands` fields are the image's column, row and plane counts,
and the `Minimum Z` / `Maximum Z` fields are the minimum and maximum
over every sample of the image (the min/max is an element of the sample
list and bounds every element of it); in particular, for a 4 × 3 × 1
image with all samples 7.0 the fields read `samples = 4`, `lines   = 3`,
`bands   = 1`, and both Z statistics print as 7.000000. -/
theorem header_counts_and_minmax :
    (∀ (e : Endianness) (z : ℚ) (img : DEMImage) (g : GeoReference) (ck : ChannelKind)
      (x : ℚ) (xs : List ℚ), img.samples = x :: xs →
      ∃ out m M,
        write_ENVI_header e z img g ck = some out ∧
        min_element img.samples = some m ∧
        max_element img.samples = some M ∧
        m ∈ img.samples ∧ M ∈ img.samples ∧
        (∀ s ∈ img.samples, m ≤ s ∧ s ≤ M) ∧
        out.get? 27 = some ("samples = " ++ toString img.cols ++ "\n") ∧
        out.get? 28 = some ("lines   = " ++ toString img.rows ++ "\n") ∧
        out.get? 29 = some ("bands   = " ++ toString img.planes ++ "\n") ∧
        out.get? 23 = some ("     Minimum Z           = " ++ formatFixed6 m ++ "\n") ∧
        out.get? 24 = some ("     Maximum Z           = " ++ formatFixed6 M ++ "\n")) ∧
    (write_ENVI_header .little 0 exampleImage exampleGeoRef .float64).map
        (fun out => [out.get? 27, out.get? 28, out.get? 29, out.get? 23, out.get? 24]) =
      some [some "samples = 4\n", some "lines   = 3\n", some "bands   = 1\n",
        some "     Minimum Z           = 7.000000\n",
        some "     Maximum Z           = 7.000000\n"] := by
  constructor
  · intro e z img g ck x xs hs
    refine ⟨envi_chunk_list (vw_to_envi_channel_type ck) e z img g
        (xs.foldl min x) (xs.foldl max x), xs.foldl min x, xs.foldl max x,
      ?_, ?_, ?_, ?_, ?_, ?_, rfl, rfl, rfl, rfl, rfl⟩
    · unfold write_ENVI_header
      rw [hs]
      rfl
    · rw [hs]
      rfl
    · rw [hs]
      rfl
    · rw [hs]
      exact foldl_min_mem xs x
    · rw [hs]
      exact foldl_max_mem xs x
    · rw [hs]
      intro s hmem
      exact ⟨foldl_min_le xs x s hmem, le_foldl_max xs x s hmem⟩
  · decide

/-- Witness for C2: the general part applied to the concrete 4 × 3 × 1
image of sevens on a little-endian host. -/
theorem header_counts_and_minmax_witness :
    ∃ out m M,
      write_ENVI_header .little 0 exampleImage exampleGeoRef .float64 = some out ∧
      min_element exampleImage.samples = some m ∧
      max_element exampleImage.samples = some M ∧
      m ∈ exampleImage.samples ∧ M ∈ exampleImage.samples ∧
      (∀ s ∈ exampleImage.samples, m ≤ s ∧ s ≤ M) ∧
      out.get? 27 = some ("samples = " ++ toString exampleImage.cols ++ "\n") ∧
      out.get? 28 = some ("lines   = " ++ toString exampleImage.rows ++ "\n") ∧
      out.get? 29 = some ("bands   = " ++ toString exampleImage.planes ++ "\n") ∧
      out.get? 23 = some ("     Minimum Z           = " ++ formatFixed6 m ++ "\n") ∧
      out.get? 24 = some ("     Maximum Z           = " ++ formatFixed6 M ++ "\n") :=
  header_counts_and_minmax.1 .little 0 exampleImage exampleGeoRef .float64
    7 (List.replicate 11 7) rfl

/-- Claim C3: the `map info` line's positional fields are, in order, the
fixed reference-pixel coordinates 1.5 and 1.5, the bounding box's
minimum X, the bounding box's maximum Y, the transform's (0,0) entry,
the transform's (1,1) entry, the datum name, and the fixed label
units=Degrees; for the example reference (X scale 0.5, Y scale -0.5,
box min (10.0, 20.0), max (12.0, 21.5)) the fields print as 10.000000,
21.500000, 0.500000, -0.500000 in that order. -/
theorem map_info_line_fields :
    (∀ (e : Endianness) (z : ℚ) (img : DEMImage) (g : GeoReference) (ck : ChannelKind)
      (x : ℚ) (xs : List ℚ), img.samples = x :: xs →
      ∃ out,
        write_ENVI_header e z img g ck = some out ∧
        out.get? 31 = some ("map info = \x7b Geographic Lat/Lon, 1.5, 1.5, " ++
          formatFixed6 (g.bounding_box img.cols img.rows).minx ++ ", " ++
          formatFixed6 (g.bounding_box img.cols img.rows).maxy ++ ", " ++
          formatFixed6 (g.transform 0 0) ++ ", " ++
          formatFixed6 (g.transform 1 1) ++ ", " ++
          g.datum_name ++ ", units=Degrees\x7d\n")) ∧
    (write_ENVI_header .little 0 exampleImage exampleGeoRef .float64).map
        (fun out => out.get? 31) =
      some (some ("map info = \x7b Geographic Lat/Lon, 1.5, 1.5, 10.000000, 21.500000, " ++
        "0.500000, -0.500000, WGS84, units=Degrees\x7d\n")) := by
  constructor
  · intro e z img g ck x xs hs
    refine ⟨envi_chunk_list (vw_to_envi_channel_type ck) e z img g
        (xs.foldl min x) (xs.foldl max x), ?_, rfl⟩
    unfold write_ENVI_header
    rw [hs]
    rfl
  · decide

/-- Witness for C3: the general part applied to the concrete example
image and reference. -/
theorem map_info_line_fields_witness :
    ∃ out,
      write_ENVI_header .little 0 exampleImage exampleGeoRef .float64 = some out ∧
      out.get? 31 = some ("map info = \x7b Geographic Lat/Lon, 1.5, 1.5, " ++
        formatFixed6 (exampleGeoRef.bounding_box exampleImage.cols exampleImage.rows).minx ++
        ", " ++
        formatFixed6 (exampleGeoRef.bounding_box exampleImage.cols exampleImage.rows).maxy ++
        ", " ++ formatFixed6 (exampleGeoRef.transform 0 0) ++ ", " ++
        formatFixed6 (exampleGeoRef.transform 1 1) ++ ", " ++
        exampleGeoRef.datum_name ++ ", units=Degrees\x7d\n") :=
  map_info_line_fields.1 .little 0 exampleImage exampleGeoRef .float64
    7 (List.replicate 11 7) rfl

/-- Claim C4: for every input on which the emitter's output is defined
(a non-empty sample range; the empty range is the source's undefined
min/max dereference), the header consists of exactly these chunks in
this fixed order: the `ENVI` marker, the description block (provenance
text, the reference's self-description, the bounding box and Z
statistics, closed by the brace line), then samples, lines, bands,
`header offset = 0`, the map-info line, `file type = ENVI Standard`,
the data-type code, the constant `interleave = bsq`, the byte-order
field, and a trailing blank line — no field is ever omitted. -/
theorem header_field_order (e : Endianness) (z : ℚ) (img : DEMImage)
    (g : GeoReference) (ck : ChannelKind) (x : ℚ) (xs : List ℚ)
    (hs : img.samples = x :: xs) :
    write_ENVI_header e z img g ck =
      some [ "ENVI\n",
        "description = \x7b \n",
        "   -- Digital Elevation Map generated by the NASA Ames Stereo Pipeline --\n",
        "   \n",
        "   The Ames Stereo Pipeline generates 3D coordinates in a planetocentric \n",
        "   coordinate system with the origin at the planetary center of mass.\n",
        "   Elevations are referenced relative to standards set by the International\n",
        "   Astronomical Union (IAU)\n",
        "   \n",
        "   This DEM was generated using an area based correlation technique followed by several \n",
        "   several stages of outlier detection.  This produced a map of the disparities for each \n",
        "   pixel which was then interpolated (hole filled) using a 2D non-uniform b-spline fitting\n",
        "   process.  You should find a interpolation map file included in this archive that shows\n",
        "   which pixels represent interpolated data.\n",
        "   \n",
        "   Projection Information:\n",
        "   " ++ g.description ++ "\n",
        "   \n",
        "   Bounding box:\n",
        "     Minimum X (left)    = " ++
          formatFixed6 (g.bounding_box img.cols img.rows).minx ++ "\n",
        "     Minimum Y (top)     = " ++
          formatFixed6 (g.bounding_box img.cols img.rows).miny ++ "\n",
        "     Maximum X (right)   = " ++
          formatFixed6 (g.bounding_box img.cols img.rows).maxx ++ "\n",
        "     Maximum Y (bottom)  = " ++
          formatFixed6 (g.bounding_box img.cols img.rows).maxy ++ "\n",
        "     Minimum Z           = " ++ formatFixed6 (xs.foldl min x) ++ "\n",
        "     Maximum Z           = " ++ formatFixed6 (xs.foldl max x) ++ "\n",
        "     Default Z           = " ++ formatFixed6 z ++ "\n",
        "\x7d\n",
        "samples = " ++ toString img.cols ++ "\n",
        "lines   = " ++ toString img.rows ++ "\n",
        "bands   = " ++ toString img.planes ++ "\n",
        "header offset = 0\n",
        "map info = \x7b Geographic Lat/Lon, 1.5, 1.5, " ++
          formatFixed6 (g.bounding_box img.cols img.rows).minx ++ ", " ++
          formatFixed6 (g.bounding_box img.cols img.rows).maxy ++ ", " ++
          formatFixed6 (g.transform 0 0) ++ ", " ++
          formatFixed6 (g.transform 1 1) ++ ", " ++
          g.datum_name ++ ", units=Degrees\x7d\n",
        "file type = ENVI Standard\n",
        "data type = " ++ toString (vw_to_envi_channel_type ck) ++ "\n",
        "interleave = bsq\n",
        "byte order = " ++ toString (byteOrderProbe e) ++ "\n",
        "\n" ] := by
  unfold write_ENVI_header
  rw [hs]
  rfl

/-- Witness for C4: the full header of the concrete example, every field
present in the fixed order. -/
theorem header_field_order_witness :
    write_ENVI_header .little 0 exampleImage exampleGeoRef .float64 =
      some [ "ENVI\n",
        "description = \x7b \n",
        "   -- Digital Elevation Map generated by the NASA Ames Stereo Pipeline --\n",
        "   \n",
        "   The Ames Stereo Pipeline generates 3D coordinates in a planetocentric \n",
        "   coordinate system with the origin at the planetary center of mass.\n",
        "   Elevations are referenced relative to standards set by the International\n",
        "   Astronomical Union (IAU)\n",
        "   \n",
        "   This DEM was generated using an area based correlation technique followed by several \n",
        "   several stages of outlier detection.  This produced a map of the disparities for each \n",
        "   pixel which was then interpolated (hole filled) using a 2D non-uniform b-spline fitting\n",
        "   process.  You should find a interpolation map file included in this archive that shows\n",
        "   which pixels represent interpolated data.\n",
        "   \n",
        "   Projection Information:\n",
        "   " ++ exampleGeoRef.description ++ "\n",
        "   \n",
        "   Bounding box:\n",
        "     Minimum X (left)    = " ++
          formatFixed6 (exampleGeoRef.bounding_box exampleImage.cols exampleImage.rows).minx ++
          "\n",
        "     Minimum Y (top)     = " ++
          formatFixed6 (exampleGeoRef.bounding_box exampleImage.cols exampleImage.rows).miny ++
          "\n",
        "     Maximum X (right)   = " ++
          formatFixed6 (exampleGeoRef.bounding_box exampleImage.cols exampleImage.rows).maxx ++
          "\n",
        "     Maximum Y (bottom)  = " ++
          formatFixed6 (exampleGeoRef.bounding_box exampleImage.cols exampleImage.rows).maxy ++
          "\n",
        "     Minimum Z           = " ++
          formatFixed6 ((List.replicate 11 (7 : ℚ)).foldl min 7) ++ "\n",
        "     Maximum Z           = " ++
          formatFixed6 ((List.replicate 11 (7 : ℚ)).foldl max 7) ++ "\n",
        "     Default Z           = " ++ formatFixed6 0 ++ "\n",
        "\x7d\n",
        "samples = " ++ toString exampleImage.cols ++ "\n",
        "lines   = " ++ toString exampleImage.rows ++ "\n",
        "bands   = " ++ toString exampleImage.planes ++ "\n",
        "header offset = 0\n",
        "map info = \x7b Geographic Lat/Lon, 1.5, 1.5, " ++
          formatFixed6 (exampleGeoRef.bounding_box exampleImage.cols exampleImage.rows).minx ++
          ", " ++
          formatFixed6 (exampleGeoRef.bounding_box exampleImage.cols exampleImage.rows).maxy ++
          ", " ++ formatFixed6 (exampleGeoRef.transform 0 0) ++ ", " ++
          formatFixed6 (exampleGeoRef.transform 1 1) ++ ", " ++
          exampleGeoRef.datum_name ++ ", units=Degrees\x7d\n",
        "file type = ENVI Standard\n",
        "data type = " ++ toString (vw_to_envi_channel_type ChannelKind.float64) ++ "\n",
        "interleave = bsq\n",
        "byte order = " ++ toString (byteOrderProbe Endianness.little) ++ "\n",
        "\n" ] :=
  header_field_order .little 0 exampleImage exampleGeoRef .float64
    7 (List.replicate 11 7) rfl

/-- Claim C5: the `byte order` field is computed by the 16-bit
endianness probe, equals 0 on a little-endian host and 1 on a big-endian
host, and the emitted field is a function of the host endianness alone —
independent of the image, the reference, the default Z value and the
channel kind. -/
theorem byte_order_field :
    byteOrderProbe .little = 0 ∧ byteOrderProbe .big = 1 ∧
    (∀ (e : Endianness) (z : ℚ) (img : DEMImage) (g : GeoReference) (ck : ChannelKind)
      (x : ℚ) (xs : List ℚ), img.samples = x :: xs →
      ∃ out,
        write_ENVI_header e z img g ck = some out ∧
        out.get? 35 = some ("byte order = " ++ toString (byteOrderProbe e) ++ "\n")) := by
  refine ⟨rfl, rfl, ?_⟩
  intro e z img g ck x xs hs
  refine ⟨envi_chunk_list (vw_to_envi_channel_type ck) e z img g
      (xs.foldl min x) (xs.foldl max x), ?_, rfl⟩
  unfold write_ENVI_header
  rw [hs]
  rfl

/-- Witness for C5: the concrete example on a little-endian host emits
`byte order = 0`. -/
theorem byte_order_field_witness :
    ∃ out,
      write_ENVI_header .little 0 exampleImage exampleGeoRef .float64 = some out ∧
      out.get? 35 = some ("byte order = " ++ toString (byteOrderProbe .little) ++ "\n") :=
  byte_order_field.2.2 .little 0 exampleImage exampleGeoRef .float64
    7 (List.replicate 11 7) rfl

/-- Claim C7: the emitter is deterministic — two invocations with equal
inputs (default Z value, image, reference and channel kind, on a host of
the same endianness) produce byte-identical file contents. -/
theorem header_write_deterministic (e : Endianness) (z₁ z₂ : ℚ)
    (img₁ img₂ : DEMImage) (g₁ g₂ : GeoReference) (ck₁ ck₂ : ChannelKind)
    (hz : z₁ = z₂) (himg : img₁ = img₂) (hg : g₁ = g₂) (hck : ck₁ = ck₂) :
    envi_file_content e z₁ img₁ g₁ ck₁ = envi_file_content e z₂ img₂ g₂ ck₂ := by
  rw [hz, himg, hg, hck]

/-- Witness for C7: two invocations on the concrete example inputs give
the same file content. -/
theorem header_write_deterministic_witness :
    envi_file_content .little 0 exampleImage exampleGeoRef .float64 =
      envi_file_content .little 0 exampleImage exampleGeoRef .float64 :=
  header_write_deterministic .little 0 0 exampleImage exampleImage
    exampleGeoRef exampleGeoRef .float64 .float64 rfl rfl rfl rfl

/-- Claim C8: for a channel kind outside the supported set, resolution
fails (the template has no specialization, so the program does not
compile) and no chunk is ever produced — no empty or partial file
contents exist for any image, reference or default value. -/
theorem unsupported_channel_kind_no_output (ck : ChannelKindExt)
    (h : vw_to_envi_channel_type_ext ck = none) :
    ∀ (e : Endianness) (z : ℚ) (img : DEMImage) (g : GeoReference),
      write_ENVI_header_ext e z img g ck = none := by
  intro e z img g
  unfold write_ENVI_header_ext
  rw [h]

/-- Witness for C8: the 8-bit signed kind is unsupported and yields no
output on the concrete example inputs. -/
theorem unsupported_channel_kind_no_output_witness :
    write_ENVI_header_ext .little 0 exampleImage exampleGeoRef ChannelKindExt.int8 = none :=
  unsupported_channel_kind_no_output ChannelKindExt.int8 rfl
    .little 0 exampleImage exampleGeoRef

/-- Claim C6 (evaluation at the failing input): an image with zero
columns or zero rows has an empty sample range; there the source's
`std::min_element` / `std::max_element` return the end iterator (no
defined value — the source dereferences it, which is undefined
behaviour, raising no explicit error), so the emitter has no defined
output; in particular the concrete 0 × 0 image yields none. -/
theorem empty_image_minmax_undefined :
    min_element [] = none ∧ max_element [] = none ∧
    (∀ img : DEMImage, img.cols = 0 ∨ img.rows = 0 → img.samples = []) ∧
    (∀ (e : Endianness) (z : ℚ) (g : GeoReference) (ck : ChannelKind) (img : DEMImage),
      img.samples = [] → write_ENVI_header e z img g ck = none) ∧
    write_ENVI_header .little 0 emptyImage exampleGeoRef .float64 = none := by
  refine ⟨rfl, rfl, ?_, ?_, rfl⟩
  · intro img h
    apply List.eq_nil_of_length_eq_zero
    rw [img.hsize]
    rcases h with h | h <;> simp [h]
  · intro e z g ck img h
    unfold write_ENVI_header
    rw [h]
    rfl

/-- Witness for C6: the emitter applied to the concrete empty image has
no defined output. -/
theorem empty_image_minmax_undefined_witness :
    write_ENVI_header .little 0 emptyImage exampleGeoRef .float64 = none :=
  empty_image_minmax_undefined.2.2.2.1 .little 0 exampleGeoRef .float64 emptyImage rfl

/-- Claim C9 (evaluation of the I/O trace): `write_ENVI_header` performs
one `fopen`, then every `fprintf`, then one `fclose`, and the trace is
identical whether or not the `fopen` succeeded — the source never
inspects the returned handle, so for an unwritable destination
(`openOK = false`) it still writes every chunk through the unopened
handle instead of failing. -/
theorem unchecked_fopen_trace (path : String) (openOK : Bool) (e : Endianness)
    (z : ℚ) (img : DEMImage) (g : GeoReference) (ck : ChannelKind)
    (x : ℚ) (xs : List ℚ) (hs : img.samples = x :: xs) :
    ∃ t,
      write_ENVI_header_trace path openOK e z img g ck = some t ∧
      t.get? 0 = some (FileEvent.openFile path "w") ∧
      t.get? 1 = some (FileEvent.writeChunk "ENVI\n") ∧
      t.getLast? = some FileEvent.closeFile ∧
      write_ENVI_header_trace path false e z img g ck =
        write_ENVI_header_trace path openOK e z img g ck := by
  refine ⟨FileEvent.openFile path "w" ::
      ((envi_chunk_list (vw_to_envi_channel_type ck) e z img g
          (xs.foldl min x) (xs.foldl max x)).map FileEvent.writeChunk ++
        [FileEvent.closeFile]), ?_, rfl, rfl, ?_, ?_⟩
  · unfold write_ENVI_header_trace
    rw [hs]
    rfl
  · rw [← List.cons_append]
    exact List.getLast?_concat _
  · rfl

/-- Witness for C9: on the concrete example with a failed open
(`openOK = false`) the trace still opens, writes every chunk and
closes. -/
theorem unchecked_fopen_trace_witness :
    ∃ t,
      write_ENVI_header_trace "dem.hdr" false .little 0 exampleImage exampleGeoRef
          .float64 = some t ∧
      t.get? 0 = some (FileEvent.openFile "dem.hdr" "w") ∧
      t.get? 1 = some (FileEvent.writeChunk "ENVI\n") ∧
      t.getLast? = some FileEvent.closeFile ∧
      write_ENVI_header_trace "dem.hdr" false .little 0 exampleImage exampleGeoRef
          .float64 =
        write_ENVI_header_trace "dem.hdr" false .little 0 exampleImage exampleGeoRef
          .float64 :=
  unchecked_fopen_trace "dem.hdr" false .little 0 exampleImage exampleGeoRef
    .float64 7 (List.replicate 11 7) rfl

/-- Claim C10: the third and fourth positional values of the `map info`
line are exactly the numbers printed on the description block's
`Minimum X (left)` and `Maximum Y (bottom)` lines: one bounding box is
computed from the reference and the image's column and row counts, and
the same formatted minimum-X and maximum-Y values appear in both
places. -/
theorem map_info_matches_description_bbox (e : Endianness) (z : ℚ)
    (img : DEMImage) (g : GeoReference) (ck : ChannelKind)
    (x : ℚ) (xs : List ℚ) (hs : img.samples = x :: xs) :
    ∃ out bb,
      bb = g.bounding_box img.cols img.rows ∧
      write_ENVI_header e z img g ck = some out ∧
      out.get? 19 = some ("     Minimum X (left)    = " ++ formatFixed6 bb.minx ++ "\n") ∧
      out.get? 22 = some ("     Maximum Y (bottom)  = " ++ formatFixed6 bb.maxy ++ "\n") ∧
      out.get? 31 = some ("map info = \x7b Geographic Lat/Lon, 1.5, 1.5, " ++
        formatFixed6 bb.minx ++ ", " ++ formatFixed6 bb.maxy ++ ", " ++
        formatFixed6 (g.transform 0 0) ++ ", " ++ formatFixed6 (g.transform 1 1) ++ ", " ++
        g.datum_name ++ ", units=Degrees\x7d\n") := by
  refine ⟨envi_chunk_list (vw_to_envi_channel_type ck) e z img g
      (xs.foldl min x) (xs.foldl max x), g.bounding_box img.cols img.rows,
    rfl, ?_, rfl, rfl, rfl⟩
  unfold write_ENVI_header
  rw [hs]
  rfl

/-- Witness for C10: on the concrete example the description block and
the map-info line show the same bounding-box minimum X and maximum Y. -/
theorem map_info_matches_description_bbox_witness :
    ∃ out bb,
      bb = exampleGeoRef.bounding_box exampleImage.cols exampleImage.rows ∧
      write_ENVI_header .little 0 exampleImage exampleGeoRef .float64 = some out ∧
      out.get? 19 = some ("     Minimum X (left)    = " ++ formatFixed6 bb.minx ++ "\n") ∧
      out.get? 22 = some ("     Maximum Y (bottom)  = " ++ formatFixed6 bb.maxy ++ "\n") ∧
      out.get? 31 = some ("map info = \x7b Geographic Lat/Lon, 1.5, 1.5, " ++
        formatFixed6 bb.minx ++ ", " ++ formatFixed6 bb.maxy ++ ", " ++
        formatFixed6 (exampleGeoRef.transform 0 0) ++ ", " ++
        formatFixed6 (exampleGeoRef.transform 1 1) ++ ", " ++
        exampleGeoRef.datum_name ++ ", units=Degrees\x7d\n") :=
  map_info_matches_description_bbox .little 0 exampleImage exampleGeoRef .float64
    7 (List.replicate 11 7) rfl
